import Mathlib

/-!
Shallow embedding of `src/offline_currency_converter_en.py`, an offline
currency converter. Python dicts holding JSON data are modelled as records
with `Option` fields (a `none` field models an absent key); the `rates`
mapping is an association list `List (String × ℚ)`; Python floats are
modelled as exact rationals; a Python `raise` is modelled with `Except`.
-/

/-- The `rates` mapping of a snapshot: currency code → rate. -/
abbrev Rates := List (String × ℚ)

/-- The JSON value stored under the `rates` key: either a mapping (dict)
or some other JSON value (the code checks `isinstance(data['rates'], dict)`). -/
inductive RatesField where
  | dict (entries : Rates)
  | other
deriving DecidableEq, Repr

/-- A JSON object as handled by the program: each field is `none` when the
key is absent from the dict.  Mirrors the keys the program reads:
`rates`, `base`, `date` (validated), `timestamp`, `date_fetched` (stamped
by `fetch_rates`, read unguarded elsewhere). -/
structure ApiData where
  rates : Option RatesField
  base : Option String
  date : Option String
  timestamp : Option Int
  date_fetched : Option String
deriving DecidableEq, Repr

/-- Python `KeyError`, raised by an unguarded `data['key']` lookup. -/
inductive PyError where
  | keyError (key : String)
deriving DecidableEq, Repr

/-- Unguarded Python dict lookup `data[key]` on a modelled optional field. -/
def getKey {α : Type} (field : Option α) (key : String) : Except PyError α :=
  match field with
  | some v => Except.ok v
  | none => Except.error (PyError.keyError key)

/-- `validate_api_response(data, expected_base)` (lines 87–110): checks the
required keys `rates`, `base`, `date` in order, that `rates` is a dict, and
that `data['base']` equals `expected_base` when a truthy (non-empty)
`expected_base` is given.  Returns the `(bool, str)` pair of the source. -/
def validate_api_response (data : ApiData) (expected_base : Option String) : Bool × String :=
  if data.rates.isNone then (false, "API response missing required field: rates")
  else if data.base.isNone then (false, "API response missing required field: base")
  else if data.date.isNone then (false, "API response missing required field: date")
  else if (match data.rates with
           | some (RatesField.dict _) => false
           | _ => true) then (false, "The rates field must be a dictionary")
  else if (match expected_base with
           | some eb => eb != "" && data.base != some eb
           | none => false) then (false, "Base currency does not match expected")
  else (true, "Data is valid")

deriving instance DecidableEq for Except

/-- Conversion failure, mirroring the distinct `ValueError` messages of
`perform_conversion`: a currency code absent from `rates`, or a present
code whose rate is `<= 0`. -/
inductive ConvError where
  | unknownCurrency (code : String)
  | invalidRate (code : String) (rate : ℚ)
deriving DecidableEq, Repr

/-- `perform_conversion(rates_data, src_code, tgt_code, amount)`
(lines 289–322): checks membership of both codes in `rates_data['rates']`,
then positivity of both rates, then returns `amount * (tgt_rate / src_rate)`. -/
def perform_conversion (rates : Rates) (src_code tgt_code : String) (amount : ℚ) :
    Except ConvError ℚ :=
  match rates.lookup src_code with
  | none => Except.error (ConvError.unknownCurrency src_code)
  | some src_rate =>
    match rates.lookup tgt_code with
    | none => Except.error (ConvError.unknownCurrency tgt_code)
    | some tgt_rate =>
      if src_rate ≤ 0 then Except.error (ConvError.invalidRate src_code src_rate)
      else if tgt_rate ≤ 0 then Except.error (ConvError.invalidRate tgt_code tgt_rate)
      else Except.ok (amount * (tgt_rate / src_rate))

/-- The fixed currency catalog `CURRENCY_NAMES` (lines 18–41), in the
source's insertion (iteration) order. -/
def CURRENCY_NAMES : List (String × String) :=
  [("USD", "US Dollar"),
   ("EUR", "Euro"),
   ("RUB", "Russian Ruble"),
   ("UAH", "Ukrainian Hryvnia"),
   ("GBP", "British Pound Sterling"),
   ("JPY", "Japanese Yen"),
   ("CNY", "Chinese Yuan"),
   ("KZT", "Kazakhstani Tenge"),
   ("BYN", "Belarusian Ruble"),
   ("PLN", "Polish Zloty"),
   ("CAD", "Canadian Dollar"),
   ("AUD", "Australian Dollar"),
   ("CHF", "Swiss Franc"),
   ("CZK", "Czech Koruna"),
   ("SEK", "Swedish Krona"),
   ("NOK", "Norwegian Krone"),
   ("MXN", "Mexican Peso"),
   ("SGD", "Singapore Dollar"),
   ("HKD", "Hong Kong Dollar"),
   ("NZD", "New Zealand Dollar"),
   ("ILS", "Israeli Shekel"),
   ("KRW", "South Korean Won")]

/-- The loop body of `get_available_currencies` (lines 211–218): iterate the
catalog, appending each `(code, name)` whose code is in `rates` with a rate
`> 0`. -/
def availLoop (rates : Rates) : List (String × String) → List (String × String)
  | [] => []
  | (code, name) :: rest =>
    match rates.lookup code with
    | some r => if r > 0 then (code, name) :: availLoop rates rest else availLoop rates rest
    | none => availLoop rates rest

/-- `get_available_currencies(rates_data)` (lines 202–218), applied to
`rates_data['rates']`. -/
def get_available_currencies (rates : Rates) : List (String × String) :=
  availLoop rates CURRENCY_NAMES

/-- `is_data_fresh(data, max_days)` (lines 186–200): `False` when the
`timestamp` key is absent, else whether the age in whole days
(`timedelta.days`, i.e. floor of seconds / 86400) is `< max_days`.
`now` is the current wall clock in epoch seconds. -/
def is_data_fresh (data : ApiData) (now : Int) (max_days : Int) : Bool :=
  match data.timestamp with
  | none => false
  | some ts => Int.fdiv (now - ts) 86400 < max_days

/-- The outcome of one provider request in `fetch_rates` (lines 118–149):
a network-level failure, a JSON decoding failure, some other exception, or
a decoded JSON body. -/
inductive AttemptOutcome where
  | requestError
  | jsonError
  | otherError
  | response (data : ApiData)
deriving DecidableEq, Repr

/-- Python `str.split('/')` on a character list: split at every `'/'`,
keeping empty components (so a trailing `'/'` yields a final empty
component), as `str.split` with an explicit separator does. -/
def splitOnSlash : List Char → List (List Char)
  | [] => [[]]
  | c :: rest =>
    match splitOnSlash rest with
    | [] => [[]]
    | h :: t => if c = '/' then [] :: h :: t else (c :: h) :: t

/-- `api_url.split('/')[-1]` (line 121): the last `/`-separated component. -/
def expectedBaseOf (url : String) : String :=
  String.mk ((splitOnSlash url.data).getLastD [])

/-- Lines 141–142: stamp a validated response with the formatted fetch date
and the integer epoch-second fetch time. -/
def stamp (data : ApiData) (dateStr : String) (now : Int) : ApiData :=
  { data with date_fetched := some dateStr, timestamp := some now }

/-- `fetch_rates()` (lines 112–151) over a run-specific list of
`(api_url, outcome)` pairs in `API_URLS` order: any exception skips to the
next URL; a decoded body failing `validate_api_response` against the base
implied by the URL is also skipped; the first validated body is stamped and
returned immediately; `None` once the list is exhausted. -/
def fetch_rates (dateStr : String) (now : Int) :
    List (String × AttemptOutcome) → Option ApiData
  | [] => none
  | (url, outcome) :: rest =>
    match outcome with
    | AttemptOutcome.response data =>
      if (validate_api_response data (some (expectedBaseOf url))).1 then
        some (stamp data dateStr now)
      else fetch_rates dateStr now rest
    | _ => fetch_rates dateStr now rest

/-- `load_db()` (lines 153–175): `file` is `none` when `DB_FILE` does not
exist, cannot be read, or fails to parse as JSON; a parsed store failing
`validate_api_response` (with no expected base) is also dropped. -/
def load_db (file : Option ApiData) : Option ApiData :=
  match file with
  | none => none
  | some data => if (validate_api_response data none).1 then some data else none

/-- The seven status messages `display_status_message` can format, keyed by
the `internet_available` branch, whether fresh data exists, and the age
comparison; each carries the `date_fetched` string it interpolates. -/
inductive StatusMsg where
  | updated (date_fetched : String)
  | onlineOutdated (date_fetched : String)
  | onlineCurrent (date_fetched : String)
  | onlineNoData
  | offlineOutdated (date_fetched : String)
  | offlineCurrent (date_fetched : String)
  | offlineNoData
deriving DecidableEq, Repr

/-- `display_status_message(internet_available, db_data, fresh_data)`
(lines 259–287).  The unguarded `db_data['timestamp']`,
`db_data['date_fetched']` and `fresh_data['date_fetched']` lookups are
modelled with `getKey`, so a missing key surfaces as a `KeyError`. -/
def display_status_message (internet_available : Bool)
    (db_data fresh_data : Option ApiData) (now : Int) : Except PyError StatusMsg :=
  if internet_available then
    match fresh_data with
    | some fd => do
      let d ← getKey fd.date_fetched "date_fetched"
      return StatusMsg.updated d
    | none =>
      match db_data with
      | some db => do
        let ts ← getKey db.timestamp "timestamp"
        let days_old := Int.fdiv (now - ts) 86400
        let d ← getKey db.date_fetched "date_fetched"
        if days_old > 7 then return StatusMsg.onlineOutdated d
        else return StatusMsg.onlineCurrent d
      | none => return StatusMsg.onlineNoData
  else
    match db_data with
    | some db => do
      let ts ← getKey db.timestamp "timestamp"
      let days_old := Int.fdiv (now - ts) 86400
      let d ← getKey db.date_fetched "date_fetched"
      if days_old > 7 then return StatusMsg.offlineOutdated d
      else return StatusMsg.offlineCurrent d
    | none => return StatusMsg.offlineNoData

/-- The update phase of `main` (lines 338–343): `fresh_data` starts as
`None`; only when `internet_available` is the fetch performed (its result
is `fetchResult`); a truthy `fresh_data` is saved with `save_db`,
overwriting the store file.  Returns
`(fresh_data, store file afterwards, whether a fetch was attempted)`. -/
def mainUpdatePhase (internet_available : Bool) (fetchResult : Option ApiData)
    (storedFile : Option ApiData) : Option ApiData × Option ApiData × Bool :=
  if internet_available then
    match fetchResult with
    | some d => (some d, some d, true)
    | none => (none, storedFile, true)
  else (none, storedFile, false)

/-- Line 346, `rates_data = fresh_data if fresh_data else db_data`, with
`fresh_data` as produced by the update phase: the active snapshot of the
run. -/
def selectActive (internet_available : Bool) (db_data fetchResult : Option ApiData) :
    Option ApiData :=
  match (mainUpdatePhase internet_available fetchResult db_data).1 with
  | some d => some d
  | none => db_data

/-- Line 417: the result display reads `rates_data['date_fetched']`
unguarded. -/
def resultDisplayDate (rates_data : ApiData) : Except PyError String :=
  getKey rates_data.date_fetched "date_fetched"

/-- The conversion result is an `unknownCurrency` failure. -/
def isUnknownCurrencyErr : Except ConvError ℚ → Bool
  | Except.error (ConvError.unknownCurrency _) => true
  | _ => false

/-- The conversion result is an `invalidRate` failure. -/
def isInvalidRateErr : Except ConvError ℚ → Bool
  | Except.error (ConvError.invalidRate _ _) => true
  | _ => false

/-- The filtering predicate of `get_available_currencies`: the code is in
`rates` with a strictly positive rate. -/
def availKeep (rates : Rates) (cn : String × String) : Bool :=
  match rates.lookup cn.1 with
  | some r => decide (0 < r)
  | none => false

/-- One endpoint attempt counts as failed when it raised (any of the three
`except` arms of `fetch_rates`) or when its decoded body fails validation
against the base implied by the URL. -/
def attemptFails (url : String) (outcome : AttemptOutcome) : Bool :=
  match outcome with
  | AttemptOutcome.response data => !(validate_api_response data (some (expectedBaseOf url))).1
  | _ => true

/-- The concrete snapshot rates of the spec's scenario:
`{USD: 1.0, EUR: 0.9, RUB: 95.0}`. -/
def usdSnapshotRates : Rates := [("USD", 1), ("EUR", 9/10), ("RUB", 95)]

/-- A stored snapshot used by the C6 witness: fetched at epoch second 0. -/
def dbSnapshotAtZero : ApiData :=
  { rates := some (RatesField.dict [("USD", 1)]), base := some "USD",
    date := some "2025-08-25", timestamp := some 0, date_fetched := some "08/25/2025" }

/-- A snapshot standing for the stored (cached) one in the C3 scenario. -/
def storedSnapshot : ApiData :=
  { rates := some (RatesField.dict [("USD", 1)]), base := some "USD",
    date := some "2025-08-01", timestamp := some 100, date_fetched := some "08/01/2025" }

/-- A snapshot standing for what the provider fetch would return in the C3
and C5 scenarios. -/
def fetchedSnapshot : ApiData :=
  { rates := some (RatesField.dict [("EUR", 1)]), base := some "EUR",
    date := some "2025-08-25", timestamp := some 200, date_fetched := some "08/25/2025" }

/-- An API response with a non-positive rate: it passes
`validate_api_response` in full, so it is stored and used. -/
def negativeRateResponse : ApiData :=
  { rates := some (RatesField.dict [("USD", -1)]), base := some "USD",
    date := some "2025-08-25", timestamp := none, date_fetched := none }

/-- `negativeRateResponse` as stamped by a successful fetch. -/
def negativeRateStamped : ApiData := stamp negativeRateResponse "08/25/2025" 1756100000

/-- A well-formed USD response used by witnesses (integer-valued rates, so
closed evaluation needs no rational normalization). -/
def usdResponse : ApiData :=
  { rates := some (RatesField.dict [("USD", 1), ("RUB", 95)]),
    base := some "USD", date := some "2025-08-25", timestamp := none, date_fetched := none }

/-- A persisted store file with the keys `rates`, `base`, `date` (all that
`validate_api_response` requires) but no `timestamp` or `date_fetched`. -/
def storeMissingTimestamp : ApiData :=
  { rates := some (RatesField.dict [("USD", 1)]), base := some "USD",
    date := some "2025-08-25", timestamp := none, date_fetched := none }

/- ------------------------------------------------------------------ -/
/- Theorems about the embedded program. -/

/-- C1: when both codes are present with strictly positive rates,
`perform_conversion` returns exactly `amount * (rate[target] / rate[source])`
(floats modelled as exact rationals, i.e. no rounding at this layer); the
witness instantiates the spec's scenario, converting 100 from USD to EUR
under `{USD: 1.0, EUR: 0.9, RUB: 95.0}` and obtaining 90. -/
theorem C1_convert_cross_rate (rates : Rates) (src tgt : String) (rs rt amount : ℚ)
    (hs : rates.lookup src = some rs) (ht : rates.lookup tgt = some rt)
    (hrs : 0 < rs) (hrt : 0 < rt) :
    perform_conversion rates src tgt amount = Except.ok (amount * (rt / rs)) := by
  unfold perform_conversion
  simp only [hs, ht, if_neg (not_le.mpr hrs), if_neg (not_le.mpr hrt)]

/-- C1 witness: the spec's concrete scenario, via `C1_convert_cross_rate`. -/
theorem C1_convert_cross_rate_witness :
    perform_conversion usdSnapshotRates "USD" "EUR" 100 = Except.ok 90 := by
  have h := C1_convert_cross_rate usdSnapshotRates "USD" "EUR" 1 (9/10) 100
    (by simp [usdSnapshotRates, List.lookup]) (by simp [usdSnapshotRates, List.lookup])
    (by norm_num) (by norm_num)
  rw [h]
  norm_num

/-- C2: `perform_conversion` fails with `unknownCurrency` exactly when either
code is absent from the rates mapping, fails with `invalidRate` exactly when
both codes are present but some resolved rate is `≤ 0`, and succeeds in every
remaining case (so it fails in no other case, and the two failure kinds are
distinct constructors). -/
theorem C2_convert_error_classification (rates : Rates) (src tgt : String) (amount : ℚ) :
    (isUnknownCurrencyErr (perform_conversion rates src tgt amount) = true ↔
      rates.lookup src = none ∨ rates.lookup tgt = none)
    ∧ (isInvalidRateErr (perform_conversion rates src tgt amount) = true ↔
      ∃ rs rt, rates.lookup src = some rs ∧ rates.lookup tgt = some rt ∧ (rs ≤ 0 ∨ rt ≤ 0))
    ∧ ((∃ q, perform_conversion rates src tgt amount = Except.ok q) ↔
      ∃ rs rt, rates.lookup src = some rs ∧ rates.lookup tgt = some rt ∧ 0 < rs ∧ 0 < rt) := by
  unfold perform_conversion
  cases hs : rates.lookup src with
  | none => simp [isUnknownCurrencyErr, isInvalidRateErr]
  | some rs =>
    cases ht : rates.lookup tgt with
    | none => simp [isUnknownCurrencyErr, isInvalidRateErr]
    | some rt =>
      by_cases h1 : rs ≤ 0
      · simp only [if_pos h1]
        constructor
        · simp [isUnknownCurrencyErr]
        constructor
        · simp only [isInvalidRateErr, true_iff]
          exact ⟨rs, rt, rfl, rfl, Or.inl h1⟩
        · constructor
          · rintro ⟨q, hq⟩
            exact absurd hq (by simp)
          · rintro ⟨rs', rt', hs', ht', hrs', hrt'⟩
            cases hs'
            exact absurd h1 (not_le.mpr hrs')
      · by_cases h2 : rt ≤ 0
        · simp only [if_neg h1, if_pos h2]
          constructor
          · simp [isUnknownCurrencyErr]
          constructor
          · simp only [isInvalidRateErr, true_iff]
            exact ⟨rs, rt, rfl, rfl, Or.inr h2⟩
          · constructor
            · rintro ⟨q, hq⟩
              exact absurd hq (by simp)
            · rintro ⟨rs', rt', hs', ht', hrs', hrt'⟩
              cases ht'
              exact absurd h2 (not_le.mpr hrt')
        · simp only [if_neg h1, if_neg h2]
          constructor
          · simp [isUnknownCurrencyErr]
          constructor
          · simp only [isInvalidRateErr, Bool.false_eq_true, false_iff]
            rintro ⟨rs', rt', hs', ht', hbad⟩
            cases hs'
            cases ht'
            rcases hbad with hbad | hbad
            · exact h1 hbad
            · exact h2 hbad
          · constructor
            · intro _
              exact ⟨rs, rt, rfl, rfl, not_le.mp h1, not_le.mp h2⟩
            · intro _
              exact ⟨amount * (rt / rs), rfl⟩

/-- C9: `perform_conversion` is scale-linear: with both codes present at
strictly positive rates and `k > 0`, converting `k * amount` returns exactly
`k` times the result of converting `amount` (exact equality of rationals). -/
theorem C9_convert_scale_linear (rates : Rates) (a b : String) (ra rb amount k : ℚ)
    (ha : rates.lookup a = some ra) (hb : rates.lookup b = some rb)
    (hra : 0 < ra) (hrb : 0 < rb) (hk : 0 < k) :
    perform_conversion rates a b (k * amount)
      = (perform_conversion rates a b amount).map (fun x => k * x) := by
  unfold perform_conversion
  simp only [ha, hb, if_neg (not_le.mpr hra), if_neg (not_le.mpr hrb)]
  simp only [Except.map]
  congr 1
  ring

/-- C9 witness: doubling the amount doubles the converted value on the
spec's concrete snapshot. -/
theorem C9_convert_scale_linear_witness :
    perform_conversion usdSnapshotRates "USD" "EUR" (2 * 100)
      = (perform_conversion usdSnapshotRates "USD" "EUR" 100).map (fun x => 2 * x) :=
  C9_convert_scale_linear usdSnapshotRates "USD" "EUR" 1 (9/10) 100 2
    (by simp [usdSnapshotRates, List.lookup]) (by simp [usdSnapshotRates, List.lookup])
    (by norm_num) (by norm_num) (by norm_num)

lemma availLoop_eq_filter (rates : Rates) (l : List (String × String)) :
    availLoop rates l = l.filter (availKeep rates) := by
  induction l with
  | nil => rfl
  | cons hd tl ih =>
    obtain ⟨code, name⟩ := hd
    rw [availLoop]
    cases h : rates.lookup code with
    | none => simp [List.filter, availKeep, h, ih]
    | some r =>
      by_cases hr : 0 < r
      · simp [List.filter, availKeep, h, hr, if_pos hr, ih]
      · simp [List.filter, availKeep, h, hr, if_neg hr, ih]

/-- C8: `get_available_currencies` returns exactly the catalog entries whose
code is present in the rates mapping with a strictly positive rate, as a
sublist of the catalog (hence in catalog order); in particular a catalog
code absent from the rates, or present with a rate `≤ 0`, is excluded. -/
theorem C8_available_currencies (rates : Rates) :
    (∀ cn : String × String, cn ∈ get_available_currencies rates ↔
      cn ∈ CURRENCY_NAMES ∧ ∃ r, rates.lookup cn.1 = some r ∧ 0 < r)
    ∧ (get_available_currencies rates).Sublist CURRENCY_NAMES := by
  unfold get_available_currencies
  rw [availLoop_eq_filter]
  refine ⟨fun cn => ?_, List.filter_sublist _⟩
  rw [List.mem_filter]
  constructor
  · rintro ⟨hmem, hkeep⟩
    refine ⟨hmem, ?_⟩
    unfold availKeep at hkeep
    cases h : rates.lookup cn.1 with
    | none => rw [h] at hkeep; exact absurd hkeep (by simp)
    | some r =>
      rw [h] at hkeep
      exact ⟨r, rfl, of_decide_eq_true hkeep⟩
  · rintro ⟨hmem, r, hr, hpos⟩
    exact ⟨hmem, by unfold availKeep; rw [hr]; exact decide_eq_true hpos⟩

/-- C6: a snapshot with a stored timestamp is not fresh (`is_data_fresh` at
the 7-day default) exactly when `now - fetchedAt ≥ 7` days of seconds; when
the run falls back to a stored snapshot (no fresh data), the status message
is the "outdated" variant exactly when the age in whole days exceeds 7 and
the "current" variant otherwise; and the stored snapshot is chosen as the
active snapshot whatever its age (age is not an input of the selection). -/
theorem C6_staleness_advisory_only (db : ApiData) (ts : Int) (d : String) (now : Int)
    (internet : Bool) (hts : db.timestamp = some ts) (hd : db.date_fetched = some d) :
    (is_data_fresh db now 7 = false ↔ 7 * 86400 ≤ now - ts)
    ∧ (display_status_message internet (some db) none now =
        Except.ok (if Int.fdiv (now - ts) 86400 > 7
          then (if internet then StatusMsg.onlineOutdated d else StatusMsg.offlineOutdated d)
          else (if internet then StatusMsg.onlineCurrent d else StatusMsg.offlineCurrent d)))
    ∧ selectActive internet (some db) none = some db := by
  refine ⟨?_, ?_, ?_⟩
  · unfold is_data_fresh
    simp only [hts, decide_eq_false_iff_not, not_lt]
    rw [Int.fdiv_eq_ediv _ (by norm_num)]
    omega
  · unfold display_status_message
    cases internet with
    | true =>
      simp only [if_pos rfl, hts, hd, getKey, bind, Except.bind]
      by_cases hage : Int.fdiv (now - ts) 86400 > 7
      · simp [hage, pure, Except.pure]
      · simp [hage, pure, Except.pure]
    | false =>
      simp only [Bool.false_eq_true, if_neg, hts, hd, getKey, bind, Except.bind]
      by_cases hage : Int.fdiv (now - ts) 86400 > 7
      · simp [hage, pure, Except.pure]
      · simp [hage, pure, Except.pure]
  · cases internet <;> rfl

/-- C6 witness: a 10-day-old stored snapshot (age 864000 seconds) is stale,
reported "outdated", and still selected as the active snapshot. -/
theorem C6_staleness_advisory_only_witness :
    is_data_fresh dbSnapshotAtZero 864000 7 = false
    ∧ display_status_message false (some dbSnapshotAtZero) none 864000 =
        Except.ok (StatusMsg.offlineOutdated "08/25/2025")
    ∧ selectActive false (some dbSnapshotAtZero) none = some dbSnapshotAtZero := by
  have h := C6_staleness_advisory_only dbSnapshotAtZero 0 "08/25/2025" 864000 false rfl rfl
  refine ⟨h.1.mpr (by norm_num), ?_, h.2.2⟩
  rw [h.2.1]
  have hfd : ((864000 : Int) - 0).fdiv 86400 > 7 := by decide
  simp [hfd]

/-- C3 counterexample: with the connectivity probe reporting `False`, a
stored snapshot present, and a fetch that would succeed, the active snapshot
is the stored one, not the fetched one — the claim's "the fetched snapshot
whenever the fetch succeeded, regardless of the other two inputs" fails. -/
theorem C3_counterexample :
    selectActive false (some storedSnapshot) (some fetchedSnapshot) = some storedSnapshot
    ∧ storedSnapshot.base = some "USD" ∧ fetchedSnapshot.base = some "EUR" :=
  ⟨rfl, rfl, rfl⟩

/-- C3 amended: the active snapshot is the fetched one whenever the probe
reported connectivity (so the fetch was attempted) and the fetch succeeded;
otherwise — fetch absent, or probe offline (in which case no fetch is even
attempted) — it is the stored snapshot, absent when no stored snapshot
exists. -/
theorem C3_active_selection_amended (internet : Bool) (db : Option ApiData) (f : ApiData) :
    selectActive true db (some f) = some f
    ∧ selectActive internet db none = db
    ∧ selectActive false db (some f) = db := by
  refine ⟨rfl, ?_, rfl⟩
  cases internet <;> rfl

/-- C5 counterexample: when the connectivity probe reports `False`, no fetch
attempt is made at all — even though the provider fetch would have
succeeded — refuting "a fetch attempt is made even when the probe reported
no connectivity". -/
theorem C5_counterexample :
    (mainUpdatePhase false (some fetchedSnapshot) none).2.2 = false
    ∧ (mainUpdatePhase false (some fetchedSnapshot) none).1 = none :=
  ⟨rfl, rfl⟩

/-- C5 amended: the provider fetch is attempted exactly when the
connectivity probe succeeds; with the probe reporting `False` the run has no
fresh data whatever the provider would have answered, so the probe is a
precondition for the fetch, not a mere message annotation. -/
theorem C5_fetch_gated_on_probe_amended (internet : Bool)
    (fetchResult storedFile : Option ApiData) :
    (mainUpdatePhase internet fetchResult storedFile).2.2 = internet
    ∧ (mainUpdatePhase false fetchResult storedFile).1 = none := by
  cases internet <;> cases fetchResult <;> exact ⟨rfl, rfl⟩

lemma validate_stamp (data : ApiData) (dateStr : String) (now : Int)
    (expected : Option String) :
    validate_api_response (stamp data dateStr now) expected
      = validate_api_response data expected := rfl

lemma validate_drop_expected (data : ApiData) (eb : String)
    (h : (validate_api_response data (some eb)).1 = true) :
    (validate_api_response data none).1 = true := by
  unfold validate_api_response at h ⊢
  by_cases h1 : data.rates.isNone
  · rw [if_pos h1] at h
    exact absurd h (by simp)
  · rw [if_neg h1] at h ⊢
    by_cases h2 : data.base.isNone
    · rw [if_pos h2] at h
      exact absurd h (by simp)
    · rw [if_neg h2] at h ⊢
      by_cases h3 : data.date.isNone
      · rw [if_pos h3] at h
        exact absurd h (by simp)
      · rw [if_neg h3] at h ⊢
        cases hr : data.rates with
        | none => simp [hr] at h1
        | some rf =>
          cases rf with
          | other =>
            rw [hr] at h
            simp at h
          | dict entries => simp

/-- C4 counterexample: a fetched response whose only rate is `-1` (failing
the claim's positivity requirement, and with no non-emptiness or positivity
check anywhere) is validated, returned by `fetch_rates`, saved to the store
by the update phase, and chosen as the active snapshot — so a snapshot
failing the positivity check is both stored and used. -/
theorem C4_counterexample :
    fetch_rates "08/25/2025" 1756100000
        [("https://api.exchangerate-api.com/v4/latest/USD",
          AttemptOutcome.response negativeRateResponse)]
      = some negativeRateStamped
    ∧ (mainUpdatePhase true (some negativeRateStamped) none).2.1 = some negativeRateStamped
    ∧ selectActive true none (some negativeRateStamped) = some negativeRateStamped
    ∧ negativeRateStamped.rates = some (RatesField.dict [("USD", -1)])
    ∧ ((-1 : ℚ) ≤ 0) := by
  refine ⟨?_, rfl, rfl, rfl, by norm_num⟩
  decide

/-- C4 amended: every snapshot returned by `fetch_rates` or accepted by
`load_db` (hence everything the run stores or uses) passes the *structural*
validation of `validate_api_response` — required keys `rates`, `base`,
`date` present and `rates` a mapping — but no non-emptiness or positivity
check is applied, so a snapshot with an empty rates mapping or non-positive
rates can be stored and used (non-positive rates are only filtered out at
currency-listing and conversion time). -/
theorem C4_structural_validation_amended (dateStr : String) (now : Int)
    (attempts : List (String × AttemptOutcome)) (file : Option ApiData) (d : ApiData) :
    (fetch_rates dateStr now attempts = some d → (validate_api_response d none).1 = true)
    ∧ (load_db file = some d → (validate_api_response d none).1 = true) := by
  constructor
  · induction attempts with
    | nil =>
      intro h
      exact absurd h (by simp [fetch_rates])
    | cons hd tl ih =>
      intro h
      obtain ⟨url, outcome⟩ := hd
      cases outcome with
      | response data =>
        rw [fetch_rates] at h
        by_cases hv : (validate_api_response data (some (expectedBaseOf url))).1 = true
        · rw [if_pos hv] at h
          injection h with h
          subst h
          rw [validate_stamp]
          exact validate_drop_expected _ _ hv
        · rw [if_neg hv] at h
          exact ih h
      | requestError => exact ih h
      | jsonError => exact ih h
      | otherError => exact ih h
  · intro h
    cases file with
    | none => exact absurd h (by simp [load_db])
    | some data =>
      rw [load_db] at h
      by_cases hv : (validate_api_response data none).1 = true
      · rw [if_pos hv] at h
        injection h with h
        subst h
        exact hv
      · rw [if_neg hv] at h
        exact absurd h (by simp)

/-- C4 amended witness: the stamped USD response obtained by a concrete
successful fetch passes the structural validation. -/
theorem C4_structural_validation_amended_witness :
    (validate_api_response (stamp usdResponse "08/25/2025" 1756100000) none).1 = true :=
  (C4_structural_validation_amended "08/25/2025" 1756100000
      [("https://api.exchangerate-api.com/v4/latest/USD", AttemptOutcome.response usdResponse)]
      none (stamp usdResponse "08/25/2025" 1756100000)).1 (by decide)

/-- C7: `fetch_rates` returns `None` exactly when every endpoint in the
configured list fails (raises, or its body fails validation); and whenever
every endpoint before some position fails while the endpoint at that
position returns a body validating against its URL's base, the result is
that body stamped with the current fetch date and time, returned
immediately — the endpoints after that position are never consulted. -/
theorem C7_fetch_first_success (dateStr : String) (now : Int) :
    (∀ attempts : List (String × AttemptOutcome),
      (fetch_rates dateStr now attempts = none ↔
        ∀ p ∈ attempts, attemptFails p.1 p.2 = true))
    ∧ ∀ (pre : List (String × AttemptOutcome)) (url : String) (d : ApiData)
        (post : List (String × AttemptOutcome)),
        (∀ p ∈ pre, attemptFails p.1 p.2 = true) →
        (validate_api_response d (some (expectedBaseOf url))).1 = true →
        fetch_rates dateStr now (pre ++ (url, AttemptOutcome.response d) :: post)
          = some (stamp d dateStr now) := by
  constructor
  · intro attempts
    induction attempts with
    | nil => simp [fetch_rates]
    | cons hd tl ih =>
      obtain ⟨url, outcome⟩ := hd
      cases outcome with
      | response data =>
        simp only [fetch_rates]
        by_cases hv : (validate_api_response data (some (expectedBaseOf url))).1 = true
        · rw [if_pos hv]
          constructor
          · intro h
            exact absurd h (by simp)
          · intro h
            have hthis := h (url, AttemptOutcome.response data) (by simp)
            simp only [attemptFails] at hthis
            rw [hv] at hthis
            exact absurd hthis (by simp)
        · rw [if_neg hv, ih]
          constructor
          · intro h p hp
            rcases List.mem_cons.mp hp with hp | hp
            · subst hp
              simp only [attemptFails]
              simp [Bool.not_eq_true'] at hv ⊢
              exact hv
            · exact h p hp
          · intro h p hp
            exact h p (List.mem_cons_of_mem _ hp)
      | requestError =>
        simp only [fetch_rates]
        rw [ih]
        constructor
        · intro h p hp
          rcases List.mem_cons.mp hp with hp | hp
          · subst hp
            rfl
          · exact h p hp
        · intro h p hp
          exact h p (List.mem_cons_of_mem _ hp)
      | jsonError =>
        simp only [fetch_rates]
        rw [ih]
        constructor
        · intro h p hp
          rcases List.mem_cons.mp hp with hp | hp
          · subst hp
            rfl
          · exact h p hp
        · intro h p hp
          exact h p (List.mem_cons_of_mem _ hp)
      | otherError =>
        simp only [fetch_rates]
        rw [ih]
        constructor
        · intro h p hp
          rcases List.mem_cons.mp hp with hp | hp
          · subst hp
            rfl
          · exact h p hp
        · intro h p hp
          exact h p (List.mem_cons_of_mem _ hp)
  · intro pre url d post hpre hv
    induction pre with
    | nil =>
      rw [List.nil_append, fetch_rates, if_pos hv]
    | cons hd tl ih =>
      obtain ⟨u, o⟩ := hd
      have hfail : attemptFails u o = true := hpre (u, o) (by simp)
      have htl : ∀ p ∈ tl, attemptFails p.1 p.2 = true :=
        fun p hp => hpre p (List.mem_cons_of_mem _ hp)
      cases o with
      | response data =>
        rw [List.cons_append]
        simp only [fetch_rates]
        simp only [attemptFails, Bool.not_eq_true'] at hfail
        rw [if_neg (by rw [hfail]; simp)]
        exact ih htl
      | requestError =>
        rw [List.cons_append]
        simp only [fetch_rates]
        exact ih htl
      | jsonError =>
        rw [List.cons_append]
        simp only [fetch_rates]
        exact ih htl
      | otherError =>
        rw [List.cons_append]
        simp only [fetch_rates]
        exact ih htl

/-- C7 witness: the first (USD) endpoint raises, the second (EUR) endpoint
returns a validating body; `fetch_rates` returns that body stamped. -/
theorem C7_fetch_first_success_witness :
    fetch_rates "08/25/2025" 1756100000
        [("https://api.exchangerate-api.com/v4/latest/USD", AttemptOutcome.requestError),
         ("https://api.exchangerate-api.com/v4/latest/EUR", AttemptOutcome.response fetchedSnapshot)]
      = some (stamp fetchedSnapshot "08/25/2025" 1756100000) :=
  (C7_fetch_first_success "08/25/2025" 1756100000).2
    [("https://api.exchangerate-api.com/v4/latest/USD", AttemptOutcome.requestError)]
    "https://api.exchangerate-api.com/v4/latest/EUR" fetchedSnapshot []
    (by decide) (by decide)

/-- C10: there is a store file that `load_db` accepts (its validation needs
only `rates`, `base`, `date`), and when it becomes the active snapshot
(probe online, fetch failed), the status-message formatting hits an
unguarded `db_data['timestamp']` lookup and raises `KeyError`, and the
result display's unguarded `rates_data['date_fetched']` lookup raises
`KeyError` too — neither is handled on this path. -/
theorem C10_load_accepts_store_missing_timestamp :
    load_db (some storeMissingTimestamp) = some storeMissingTimestamp
    ∧ selectActive true (some storeMissingTimestamp) none = some storeMissingTimestamp
    ∧ display_status_message true (some storeMissingTimestamp) none 1756100000
        = Except.error (PyError.keyError "timestamp")
    ∧ resultDisplayDate storeMissingTimestamp
        = Except.error (PyError.keyError "date_fetched") := by
  refine ⟨?_, rfl, ?_, rfl⟩
  · decide
  · rfl
